import Mathlib

/-!
Shallow embedding of the ScarletScanner Flask backend (`app.py`).

The embedding translates the pure data flow of the handlers into Lean
functions.  Network calls and generative-AI calls are modelled by
explicit parameters carrying the outcome the outside world produced
(`AIResult`, geocoding results, the raw Overpass elements), so that the
handlers become pure functions of the request plus those outcomes.
Python numbers are modelled as exact rationals; `round(x, n)` is
modelled by round-half-to-even on rationals.
-/

namespace ScarletScanner

/-! ### String helpers modelling the Python primitives used by the app -/

/-- Model of Python `str.lower()` (character-wise lowercasing). -/
def pyLower (s : String) : String := ⟨s.data.map Char.toLower⟩

/-- Model of Python `str.upper()` (character-wise uppercasing). -/
def pyUpper (s : String) : String := ⟨s.data.map Char.toUpper⟩

/-- Model of Python `str.strip()`: drop whitespace on both ends. -/
def pyStrip (s : String) : String :=
  ⟨((s.data.dropWhile Char.isWhitespace).reverse.dropWhile Char.isWhitespace).reverse⟩

/-- Substring test on character lists. -/
def isSubList (needle hay : List Char) : Bool :=
  hay.tails.any (fun t => needle.isPrefixOf t)

/-- Model of the Python substring operator `needle in hay` on strings. -/
def pyIn (needle hay : String) : Bool := isSubList needle.data hay.data

/-- Model of Python `str.isdigit()` for ASCII text: non-empty and all
decimal digits. -/
def pyIsDigit (s : String) : Bool := !s.data.isEmpty && s.data.all Char.isDigit

/-! ### Python `round` on exact rationals -/

/-- Round a rational to the nearest integer, ties to even — the rounding
mode of Python `round`. -/
def roundHalfEven (q : ℚ) : ℤ :=
  let f := ⌊q⌋
  if q - f < 1/2 then f
  else if q - f > 1/2 then f + 1
  else if f % 2 = 0 then f else f + 1

/-- Model of Python `round(q, 1)`. -/
def pythonRound1 (q : ℚ) : ℚ := (roundHalfEven (q * 10) : ℚ) / 10

/-- Model of Python `round(q, 2)`. -/
def pythonRound2 (q : ℚ) : ℚ := (roundHalfEven (q * 100) : ℚ) / 100

/-! ### Certification keyword rules (app.py lines 723-778) -/

/-- Non-vegan ingredient keywords, verbatim from `scan_barcode`. -/
def non_vegan_ingredients : List String :=
  ["milk", "cream", "butter", "cheese", "whey", "lactose", "casein", "yogurt", "dairy",
   "egg", "honey", "gelatin", "gelatine", "meat", "chicken", "beef", "pork", "fish",
   "salmon", "tuna", "shrimp", "shellfish", "lard", "tallow", "suet", "albumin",
   "anchovies", "caviar", "rennet", "isinglass", "cochineal", "carmine", "shellac"]

/-- Non-halal ingredient keywords, verbatim from `scan_barcode`. -/
def non_halal_ingredients : List String :=
  ["pork", "bacon", "ham", "lard", "gelatin", "gelatine", "alcohol", "wine", "beer",
   "rum", "vodka", "whiskey", "ethanol", "liqueur", "sake", "marsala"]

/-- Non-kosher ingredient keywords, verbatim from `scan_barcode`. -/
def non_kosher_ingredients : List String :=
  ["pork", "bacon", "ham", "lard", "shellfish", "shrimp", "lobster", "crab", "oyster",
   "clam", "squid", "octopus", "scallop"]

structure Certifications where
  vegan : Bool
  halal : Bool
  kosher : Bool
deriving DecidableEq

/-- Certification analysis from `scan_barcode`: the flags start `true`,
a first keyword match (Python `for`/`break`, i.e. a short-circuiting
`any`) forces the flag `false`, and an empty or literally
`"not available"` (lowercased) ingredient text overrides all three
flags to `false`. -/
def computeCertifications (ingredients_text : String) : Certifications :=
  let ingredients_str := pyLower ingredients_text
  let vegan := !(non_vegan_ingredients.any (fun kw => pyIn kw ingredients_str))
  let halal := !(non_halal_ingredients.any (fun kw => pyIn kw ingredients_str))
  let kosher := !(non_kosher_ingredients.any (fun kw => pyIn kw ingredients_str))
  if ingredients_str = "" ∨ ingredients_str = "not available" then
    ⟨false, false, false⟩
  else
    ⟨vegan, halal, kosher⟩

/-! ### Upstream JSON values and nutrient rounding (app.py lines 714-721) -/

/-- A JSON scalar as it may appear in the upstream nutriments object. -/
inductive JVal where
  | jnum (q : ℚ)
  | jstr (s : String)
  | jbool (b : Bool)
  | jnull
deriving DecidableEq

/-- Accumulate a digit run into a natural number. -/
def digitsVal (cs : List Char) : ℕ :=
  cs.foldl (fun n c => n * 10 + (c.toNat - 48)) 0

/-- Model of Python `float(s)` on strings, for the common decimal forms
(optional surrounding whitespace, optional sign, digits with an optional
decimal point; exponents and `inf`/`nan` are not modelled). -/
def floatParse (s : String) : Option ℚ :=
  let cs := (pyStrip s).data
  let signed : ℚ × List Char :=
    match cs with
    | '-' :: r => (-1, r)
    | '+' :: r => (1, r)
    | _ => (1, cs)
  match (signed.2).splitOn '.' with
  | [ip] =>
      if ip ≠ [] ∧ ip.all Char.isDigit then some (signed.1 * digitsVal ip) else none
  | [ip, fp] =>
      if (ip ≠ [] ∨ fp ≠ []) ∧ ip.all Char.isDigit ∧ fp.all Char.isDigit then
        some (signed.1 * ((digitsVal ip : ℚ) + (digitsVal fp : ℚ) / (10 ^ fp.length : ℚ)))
      else none
  | _ => none

/-- Model of Python `float(v)` on a JSON scalar. -/
def pyFloat : JVal → Option ℚ
  | .jnum q => some q
  | .jstr s => floatParse s
  | .jbool b => some (if b then 1 else 0)
  | .jnull => none

/-- A nutrient value in the response: a number or the `"N/A"` sentinel. -/
inductive NutrientVal where
  | num (q : ℚ)
  | na
deriving DecidableEq

/-- Model of `round_nutrient` from `scan_barcode`: `'N/A'`/`None` map to the
sentinel, otherwise `round(float(value), 2)`, with any conversion
failure absorbed into the sentinel. -/
def round_nutrient : Option JVal → NutrientVal
  | none => .na
  | some v =>
      if v = .jstr "N/A" ∨ v = .jnull then .na
      else
        match pyFloat v with
        | some q => .num (pythonRound2 q)
        | none => .na

/-! ### Health warnings (app.py lines 399-544) -/

structure HealthWarning where
  title : String
  message : String
  severity : String
deriving DecidableEq

structure Filters where
  dietary : List String
  health : List String
deriving DecidableEq

/-- The nutriments dictionary passed to `check_health_warnings` by
`scan_barcode` (app.py lines 868-874): every key present, each value a
number or the `'N/A'` sentinel. -/
structure NutrimentsForCheck where
  sugars : NutrientVal
  salt : NutrientVal
  sodium : NutrientVal
  saturated_fat : NutrientVal
  proteins : NutrientVal
deriving DecidableEq

/-- The slice of `product_info` that `check_health_warnings` reads. -/
structure ProductInfoView where
  ingredients : String
  certifications : Certifications
deriving DecidableEq

/-- Model of Python `str(q)` used in f-string warning messages; number
formatting is modelled by rational `toString`. -/
def pyShow (q : ℚ) : String := toString q

def meat_ingredients : List String :=
  ["meat", "chicken", "beef", "pork", "fish", "salmon", "tuna", "bacon", "ham",
   "gelatin", "gelatine"]

def gluten_ingredients : List String :=
  ["wheat", "barley", "rye", "malt", "gluten", "flour", "bread", "pasta"]

def dairy_ingredients : List String :=
  ["milk", "lactose", "dairy", "cream", "butter", "cheese", "whey", "casein", "yogurt"]

def celiac_gluten_ingredients : List String :=
  ["wheat", "barley", "rye", "malt", "gluten", "flour", "bread", "pasta", "oats"]

def phosphorus_ingredients : List String :=
  ["cheese", "milk", "dairy", "cola", "nuts", "beans", "lentils"]

/-- Model of `check_health_warnings`: collect dietary/health warnings in source
order.  Each Python `for`/`break` keyword scan is a short-circuiting
`any`. -/
def check_health_warnings (product_info : ProductInfoView)
    (nutriments : NutrimentsForCheck) (filters : Filters) : List HealthWarning :=
  let ingredients_str := pyLower product_info.ingredients
  let w_vegan : List HealthWarning :=
    if "vegan" ∈ filters.dietary ∧ product_info.certifications.vegan = false then
      [⟨"Not Vegan",
        "This product contains animal-derived ingredients and is not suitable for a vegan diet.",
        "high"⟩]
    else []
  let w_vegetarian : List HealthWarning :=
    if "vegetarian" ∈ filters.dietary ∧
        meat_ingredients.any (fun kw => pyIn kw ingredients_str) then
      [⟨"Not Vegetarian", "This product contains meat or fish ingredients.", "high"⟩]
    else []
  let w_halal : List HealthWarning :=
    if "halal" ∈ filters.dietary ∧ product_info.certifications.halal = false then
      [⟨"May Not Be Halal",
        "This product may contain non-halal ingredients (pork, alcohol, or non-halal gelatin).",
        "high"⟩]
    else []
  let w_kosher : List HealthWarning :=
    if "kosher" ∈ filters.dietary ∧ product_info.certifications.kosher = false then
      [⟨"May Not Be Kosher",
        "This product may contain non-kosher ingredients (pork, shellfish, etc.).",
        "high"⟩]
    else []
  let w_gluten : List HealthWarning :=
    if "gluten_free" ∈ filters.dietary ∧
        gluten_ingredients.any (fun kw => pyIn kw ingredients_str) then
      [⟨"Contains Gluten",
        "This product contains gluten and is not suitable for celiac disease or gluten sensitivity.",
        "high"⟩]
    else []
  let w_lactose : List HealthWarning :=
    if "lactose_free" ∈ filters.dietary ∧
        dairy_ingredients.any (fun kw => pyIn kw ingredients_str) then
      [⟨"Contains Lactose",
        "This product contains dairy/lactose and is not suitable for lactose intolerance.",
        "high"⟩]
    else []
  let w_diabetes : List HealthWarning :=
    if "diabetes" ∈ filters.health then
      match nutriments.sugars with
      | .num sugar =>
          if sugar > 10 then
            [⟨"High Sugar Content",
              "This product contains " ++ pyShow sugar ++
                "g of sugar per 100g, which may not be suitable for diabetes management.",
              "high"⟩]
          else if sugar > 5 then
            [⟨"Moderate Sugar Content",
              "This product contains " ++ pyShow sugar ++
                "g of sugar per 100g. Monitor blood glucose levels carefully.",
              "medium"⟩]
          else []
      | .na => []
    else []
  let w_hypertension : List HealthWarning :=
    if "hypertension" ∈ filters.health then
      let salt_value : ℚ :=
        match nutriments.salt with
        | .num q => q
        | .na =>
            match nutriments.sodium with
            | .num s => s * 2.5 / 1000
            | .na => 0
      if salt_value > 1.5 then
        [⟨"High Sodium Content",
          "This product contains " ++ pyShow salt_value ++
            "g of salt per 100g, which may raise blood pressure.",
          "high"⟩]
      else if salt_value > 0.75 then
        [⟨"Moderate Sodium Content",
          "This product contains " ++ pyShow salt_value ++
            "g of salt per 100g. Monitor sodium intake.",
          "medium"⟩]
      else []
    else []
  let w_heart : List HealthWarning :=
    if "heart_disease" ∈ filters.health then
      match nutriments.saturated_fat with
      | .num sf =>
          if sf > 5 then
            [⟨"High Saturated Fat",
              "This product contains " ++ pyShow sf ++
                "g of saturated fat per 100g, which may increase cholesterol levels.",
              "high"⟩]
          else if sf > 2.5 then
            [⟨"Moderate Saturated Fat",
              "This product contains " ++ pyShow sf ++
                "g of saturated fat per 100g. Limit consumption.",
              "medium"⟩]
          else []
      | .na => []
    else []
  let w_celiac : List HealthWarning :=
    if "celiac" ∈ filters.health ∧
        celiac_gluten_ingredients.any (fun kw => pyIn kw ingredients_str) then
      [⟨"Contains Gluten - Unsafe for Celiac Disease",
        "This product contains gluten and can cause serious health issues for those with celiac disease.",
        "high"⟩]
    else []
  let w_kidney : List HealthWarning :=
    if "kidney_disease" ∈ filters.health then
      (match nutriments.proteins with
       | .num protein =>
           if protein > 20 then
             [⟨"High Protein Content",
               "This product contains " ++ pyShow protein ++
                 "g of protein per 100g. High protein intake may stress kidneys.",
               "medium"⟩]
           else []
       | .na => []) ++
      (if phosphorus_ingredients.any (fun kw => pyIn kw ingredients_str) then
        [⟨"May Contain High Phosphorus",
          "This product may contain high phosphorus levels. Consult with your doctor.",
          "medium"⟩]
      else [])
    else []
  w_vegan ++ w_vegetarian ++ w_halal ++ w_kosher ++ w_gluten ++ w_lactose ++
    w_diabetes ++ w_hypertension ++ w_heart ++ w_celiac ++ w_kidney

/-- The dietary filter names `check_health_warnings` recognizes. -/
def recognized_dietary : List String :=
  ["vegan", "vegetarian", "halal", "kosher", "gluten_free", "lactose_free"]

/-- The health filter names `check_health_warnings` recognizes. -/
def recognized_health : List String :=
  ["diabetes", "hypertension", "heart_disease", "celiac", "kidney_disease"]

/-! ### Generative-enrichment sub-calls (app.py lines 46-394) -/

/-- Outcome of one outbound text-generation call: the client object is
unconfigured (`client is None`), the call or its parsing raised, or it
produced a value. -/
inductive AIResult (α : Type) where
  | noClient
  | failure
  | ok (a : α)
deriving DecidableEq

/-- Model of `generate_score_summary`: the AI text on success, `"<Type>: <grade>"`
when there is no client or the call raised. -/
def generate_score_summary (score_type grade _product_name : String)
    (r : AIResult String) : String :=
  match r with
  | .ok s => s
  | .noClient => score_type ++ ": " ++ grade
  | .failure => score_type ++ ": " ++ grade

/-- One metric object as decoded from the model's JSON: either key may
be missing. -/
structure RawMetricEntry where
  score : Option ℚ
  explanation : Option String
deriving DecidableEq

/-- The decoded metrics JSON: any of the 8 required keys may be missing
(a key bound to a non-dict value is modelled as missing, as the code
replaces both the same way). -/
structure RawMetrics where
  greenhouse_gas : Option RawMetricEntry
  processing : Option RawMetricEntry
  water_usage : Option RawMetricEntry
  land_use : Option RawMetricEntry
  soil_health : Option RawMetricEntry
  labor_risk : Option RawMetricEntry
  animal_welfare : Option RawMetricEntry
  biodiversity : Option RawMetricEntry
deriving DecidableEq

/-- A metric entry after `generate_sustainability_metrics` has repaired
it: the score is always present; the explanation stays missing in the
one unrepaired case (entry present, score missing, explanation
missing). -/
structure MetricEntry where
  score : ℚ
  explanation : Option String
deriving DecidableEq

structure Metrics where
  greenhouse_gas : MetricEntry
  processing : MetricEntry
  water_usage : MetricEntry
  land_use : MetricEntry
  soil_health : MetricEntry
  labor_risk : MetricEntry
  animal_welfare : MetricEntry
  biodiversity : MetricEntry
deriving DecidableEq

/-- The per-key repair loop of `generate_sustainability_metrics`
(app.py lines 365-374): a missing or non-dict entry becomes score 5 /
"Data unavailable"; otherwise a missing score becomes 5 (the `elif`
leaves the explanation untouched); otherwise a missing explanation
becomes "Assessment based on category". -/
def fix_metric : Option RawMetricEntry → MetricEntry
  | none => ⟨5, some "Data unavailable"⟩
  | some e =>
      match e.score with
      | none => ⟨5, e.explanation⟩
      | some sc =>
          match e.explanation with
          | none => ⟨sc, some "Assessment based on category"⟩
          | some ex => ⟨sc, some ex⟩

/-- The metric entry returned for every key when the whole call raised
(app.py lines 383-394). -/
def default_metric_entry : MetricEntry := ⟨5, some "Unable to analyze - default value"⟩

/-- All-default metrics returned by the exception handler of
`generate_sustainability_metrics`. -/
def default_metrics : Metrics :=
  ⟨default_metric_entry, default_metric_entry, default_metric_entry, default_metric_entry,
   default_metric_entry, default_metric_entry, default_metric_entry, default_metric_entry⟩

/-- Model of `generate_sustainability_metrics`: `None` when no client is
configured, all-default metrics when the call raised, otherwise the
decoded metrics with every required key repaired. -/
def generate_sustainability_metrics (r : AIResult RawMetrics) : Option Metrics :=
  match r with
  | .noClient => none
  | .failure => some default_metrics
  | .ok raw =>
      some ⟨fix_metric raw.greenhouse_gas, fix_metric raw.processing,
            fix_metric raw.water_usage, fix_metric raw.land_use,
            fix_metric raw.soil_health, fix_metric raw.labor_risk,
            fix_metric raw.animal_welfare, fix_metric raw.biodiversity⟩

structure WasteTip where
  icon : String
  title : String
  description : String
deriving DecidableEq

/-- Model of `generate_waste_reduction_tips`: `None` when there is no client or
the call/parsing raised; otherwise the decoded `tips` array (the
missing-key default `[]` is an `ok []` outcome). -/
def generate_waste_reduction_tips (r : AIResult (List WasteTip)) :
    Option (List WasteTip) :=
  match r with
  | .ok tips => some tips
  | .noClient => none
  | .failure => none

structure Alternative where
  name : String
  brand : String
  reason : String
  health_benefit : String
  sustainability_benefit : String
deriving DecidableEq

/-- Model of `generate_product_alternatives`: same outcome shape as the waste
tips call. -/
def generate_product_alternatives (r : AIResult (List Alternative)) :
    Option (List Alternative) :=
  match r with
  | .ok alts => some alts
  | .noClient => none
  | .failure => none

/-! ### Community impact actions (app.py lines 143-225) -/

structure CommunityAction where
  category : String
  action : String
  impact_score : ℚ
  benefit : String
deriving DecidableEq

/-- Model of `generate_community_impact_actions`: five actions chosen
deterministically from packaging/category keywords and the
sustainability score. -/
def generate_community_impact_actions (packaging categories : String)
    (sustainability_score : ℚ) : List CommunityAction :=
  let p := pyLower packaging
  let c := pyLower categories
  let a1 : CommunityAction :=
    if pyIn "plastic" p || pyIn "bottle" p then
      ⟨"Recycling", "Properly recycle packaging after use", 8,
       "Reduces landfill waste and plastic pollution"⟩
    else if pyIn "cardboard" p || pyIn "paper" p || pyIn "box" p then
      ⟨"Recycling", "Flatten and recycle cardboard packaging", 7,
       "Saves trees and reduces manufacturing emissions"⟩
    else
      ⟨"Recycling", "Check local recycling guidelines for this packaging", 7,
       "Ensures proper waste management"⟩
  let a2 : CommunityAction :=
    ⟨"Local Sourcing", "Choose locally-produced alternatives when available", 9,
     "Cuts transportation emissions by up to 50%"⟩
  let a3 : CommunityAction :=
    if pyIn "food" c || pyIn "beverage" c then
      ⟨"Food Waste", "Plan meals to use entire product before expiration", 8,
       "Prevents methane emissions from landfills"⟩
    else
      ⟨"Waste Reduction", "Buy only what you need to minimize waste", 7,
       "Reduces overall consumption impact"⟩
  let a4 : CommunityAction :=
    ⟨"Reuse", "Bring reusable bags and containers to store", 8,
     "Eliminates single-use plastic waste"⟩
  let a5 : CommunityAction :=
    if sustainability_score ≥ 70 then
      ⟨"Community Impact", "Share sustainable product finds with friends", 6,
       "Multiplies positive environmental choices"⟩
    else
      ⟨"Community Impact", "Support brands improving sustainability practices", 7,
       "Drives industry-wide positive change"⟩
  [a1, a2, a3, a4, a5]

/-! ### Score aggregation (app.py lines 830-858) -/

/-- The list of the 8 metric scores read with
`.get(key, {}).get('score', 0)` in `scan_barcode`. -/
def metric_scores (m : Metrics) : List ℚ :=
  [m.greenhouse_gas.score, m.processing.score, m.water_usage.score, m.land_use.score,
   m.soil_health.score, m.labor_risk.score, m.animal_welfare.score, m.biodiversity.score]

/-- Code: `overall_score = round((sum(scores) / len(scores)) * 10, 1) if scores else 0`. -/
def overall_sustainability_score (m : Metrics) : ℚ :=
  let scores := metric_scores m
  if scores = [] then 0 else pythonRound1 (scores.sum / scores.length * 10)

/-- Code: `community_impact_score = round((sum(impact_scores) / len(impact_scores)) * 10, 1)
if impact_scores else 0`. -/
def community_impact_score (actions : List CommunityAction) : ℚ :=
  let impact_scores := actions.map (fun a => a.impact_score)
  if impact_scores = [] then 0
  else pythonRound1 (impact_scores.sum / impact_scores.length * 10)

/-- Code: `combined_score = round((overall_score + community_impact_score) / 2, 1)`. -/
def combined_overall_score (o c : ℚ) : ℚ := pythonRound1 ((o + c) / 2)

/-! ### The scan handler's response assembly (app.py lines 676-880) -/

/-- The upstream nutriments object: each key may be absent (`.get`
yields `None`), and a present key holds an arbitrary JSON scalar. -/
structure UpstreamNutriments where
  energy_kcal_100g : Option JVal
  fat_100g : Option JVal
  carbohydrates_100g : Option JVal
  proteins_100g : Option JVal
  salt_100g : Option JVal
  fiber_100g : Option JVal
  sugars_100g : Option JVal
  sodium_100g : Option JVal
  saturated_fat_100g : Option JVal
deriving DecidableEq

/-- The upstream Open Food Facts product record, restricted to the keys
`scan_barcode` reads; a missing key is `none`. -/
structure UpstreamProduct where
  product_name : Option String
  brands : Option String
  image_url : Option String
  categories : Option String
  ingredients_text : Option String
  labels : Option String
  packaging : Option String
  allergens : Option String
  nutriscore_grade : Option String
  ecoscore_grade : Option String
  nutriments : UpstreamNutriments
deriving DecidableEq

/-- Outcomes of the five concurrent text-generation calls dispatched by
`scan_barcode`'s thread pool; each future's result is one `AIResult`. -/
structure AIOutcomes where
  nutri_summary : AIResult String
  eco_summary : AIResult String
  metrics : AIResult RawMetrics
  waste : AIResult (List WasteTip)
  alternatives : AIResult (List Alternative)
deriving DecidableEq

/-- The response `nutriments` object: all six keys always present. -/
structure ScanNutriments where
  energy : NutrientVal
  fat : NutrientVal
  carbohydrates : NutrientVal
  proteins : NutrientVal
  salt : NutrientVal
  fiber : NutrientVal
deriving DecidableEq

/-- The JSON body returned for a found product; `Option` fields are the
keys the handler only sets conditionally (`none` = key absent). -/
structure ScanResponse where
  status : ℕ
  success : Bool
  barcode : String
  name : String
  brand : String
  image : String
  categories : String
  ingredients : String
  labels : String
  packaging : String
  allergens : String
  certifications : Certifications
  nutriments : ScanNutriments
  nutriscore_grade : String
  ecoscore_grade : String
  nutriscore_summary : String
  ecoscore_summary : String
  sustainability_metrics : Option Metrics
  overall_sustainability_score : Option ℚ
  community_impact_actions : Option (List CommunityAction)
  community_impact_score : Option ℚ
  combined_overall_score : Option ℚ
  waste_reduction_tips : Option (List WasteTip)
  product_alternatives : Option (List Alternative)
  health_warnings : Option (List HealthWarning)

/-- Model of Python `s or "N/A"` on strings: the empty string is falsy. -/
def orNA (s : String) : String := if s = "" then "N/A" else s

/-- Model of Python `s or "Not Available"` on strings. -/
def orNotAvailable (s : String) : String := if s = "" then "Not Available" else s

/-- The five optional sustainability-related response keys, as set by
the `if sustainability_metrics:` block of `scan_barcode` (app.py lines
826-858).  A returned metrics dict always has 8 keys and is truthy;
`None` is falsy; the `if community_actions:` truthiness check is kept. -/
structure SustainabilityFields where
  sustainability_metrics : Option Metrics
  overall_sustainability_score : Option ℚ
  community_impact_actions : Option (List CommunityAction)
  community_impact_score : Option ℚ
  combined_overall_score : Option ℚ

def sustainability_block (metrics : Option Metrics) (packaging categories : String) :
    SustainabilityFields :=
  match metrics with
  | none => ⟨none, none, none, none, none⟩
  | some m =>
      let overall := overall_sustainability_score m
      let community_actions := generate_community_impact_actions packaging categories overall
      if community_actions = [] then
        ⟨some m, some overall, none, none, none⟩
      else
        let cis := community_impact_score community_actions
        ⟨some m, some overall, some community_actions, some cis,
         some (combined_overall_score overall cis)⟩

/-- The found-product branch of `scan_barcode` (app.py lines 712-880):
the request-independent outside-world outcomes (upstream product, AI
call results) are explicit parameters, and the function assembles the
HTTP 200 response body. -/
def scan_barcode_found (barcode : String) (product : UpstreamProduct)
    (ai : AIOutcomes) (filters : Filters) : ScanResponse :=
  let certifications := computeCertifications (product.ingredients_text.getD "")
  let nutriscore_grade := pyUpper (product.nutriscore_grade.getD "")
  let ecoscore_grade := pyUpper (product.ecoscore_grade.getD "")
  let name := product.product_name.getD "Unknown Product"
  let packaging := product.packaging.getD "Unknown"
  let categories := product.categories.getD ""
  let ingredients := product.ingredients_text.getD "Not available"
  let nutriscore_summary :=
    generate_score_summary "Nutri-Score" (orNotAvailable nutriscore_grade) name
      ai.nutri_summary
  let ecoscore_summary :=
    generate_score_summary "Eco-Score" (orNotAvailable ecoscore_grade) name
      ai.eco_summary
  let sustainability_metrics := generate_sustainability_metrics ai.metrics
  let waste_tips := generate_waste_reduction_tips ai.waste
  let alternatives := generate_product_alternatives ai.alternatives
  let sus := sustainability_block sustainability_metrics packaging categories
  let nutriments_for_check : NutrimentsForCheck :=
    ⟨round_nutrient product.nutriments.sugars_100g,
     round_nutrient product.nutriments.salt_100g,
     round_nutrient product.nutriments.sodium_100g,
     round_nutrient product.nutriments.saturated_fat_100g,
     round_nutrient product.nutriments.proteins_100g⟩
  let health_warnings :=
    check_health_warnings ⟨ingredients, certifications⟩ nutriments_for_check filters
  { status := 200
    success := true
    barcode := barcode
    name := name
    brand := product.brands.getD "Unknown Brand"
    image := product.image_url.getD ""
    categories := categories
    ingredients := ingredients
    labels := product.labels.getD ""
    packaging := packaging
    allergens := product.allergens.getD "None specified"
    certifications := certifications
    nutriments :=
      ⟨round_nutrient product.nutriments.energy_kcal_100g,
       round_nutrient product.nutriments.fat_100g,
       round_nutrient product.nutriments.carbohydrates_100g,
       round_nutrient product.nutriments.proteins_100g,
       round_nutrient product.nutriments.salt_100g,
       round_nutrient product.nutriments.fiber_100g⟩
    nutriscore_grade := orNA nutriscore_grade
    ecoscore_grade := orNA ecoscore_grade
    nutriscore_summary := nutriscore_summary
    ecoscore_summary := ecoscore_summary
    sustainability_metrics := sus.sustainability_metrics
    overall_sustainability_score := sus.overall_sustainability_score
    community_impact_actions := sus.community_impact_actions
    community_impact_score := sus.community_impact_score
    combined_overall_score := sus.combined_overall_score
    waste_reduction_tips :=
      match waste_tips with
      | some tips => if tips = [] then none else some tips
      | none => none
    product_alternatives :=
      match alternatives with
      | some alts => if alts = [] then none else some alts
      | none => none
    health_warnings :=
      if health_warnings = [] then none else some health_warnings }

/-! ### Market finder (app.py lines 547-673) -/

structure Coords where
  lat : ℚ
  lon : ℚ
deriving DecidableEq

/-- One Overpass element as `search_farmers_markets` reads it: optional
tags plus coordinates. -/
structure OsmElement where
  name : Option String
  shopTag : Option String
  amenityTag : Option String
  addrStreet : Option String
  addrCity : Option String
  lat : ℚ
  lon : ℚ
deriving DecidableEq

structure Market where
  name : String
  mtype : String
  address : String
  city : String
  distance : ℚ
  lat : ℚ
  lon : ℚ
deriving DecidableEq

/-- One market record built from an Overpass element.  The haversine
great-circle distance (Earth radius 3959 mi, floating-point trig) is
modelled by the explicit parameter `dist`, applied to the query centre
and the element's coordinates; the code's `round(distance, 1)` is kept. -/
def mkMarket (dist : ℚ → ℚ → ℚ → ℚ → ℚ) (center : Coords) (e : OsmElement) : Market :=
  { name := e.name.getD "Local Market"
    mtype := e.shopTag.getD (e.amenityTag.getD "market")
    address := e.addrStreet.getD "Address not available"
    city := e.addrCity.getD ""
    distance := pythonRound1 (dist center.lat center.lon e.lat e.lon)
    lat := e.lat
    lon := e.lon }

/-- Comparison used by `markets.sort(key=lambda x: x['distance'])`. -/
def byDistance (a b : Market) : Bool := decide (a.distance ≤ b.distance)

/-- Model of `search_farmers_markets`: build a market per Overpass element, sort
ascending by distance (Python's stable sort, modelled by `mergeSort`),
return the first 10. -/
def search_farmers_markets (dist : ℚ → ℚ → ℚ → ℚ → ℚ) (center : Coords)
    (elements : List OsmElement) : List Market :=
  let markets := elements.map (mkMarket dist center)
  (markets.mergeSort byDistance).take 10

/-- Geocoding outcome: `geocode_zipcode` returns coordinates or `None`
(not found / any error). -/
inductive GeoResult where
  | found (c : Coords)
  | none
deriving DecidableEq

/-- The `/find-markets` response as far as the claims are concerned,
plus a record of which outbound calls the handler performed. -/
structure FindMarketsResponse where
  status : ℕ
  success : Bool
  markets : Option (List Market)
  geocode_called : Bool
  poi_called : Bool
deriving DecidableEq

/-- Model of `find_markets` (app.py lines 634-673): the raw `zipcode` field of
the request JSON (absent key modelled as `none`, `.get` default `''`),
stripped; malformed ZIPs are rejected with 400 before the geocode call.
The geocoding outcome and the Overpass elements are explicit
parameters standing for the two network calls, and the response
records whether each call was reached.  Python `str.isdigit` is
modelled for ASCII text. -/
def find_markets (geo : GeoResult) (dist : ℚ → ℚ → ℚ → ℚ → ℚ)
    (elements : List OsmElement) (zipcode_field : Option String) :
    FindMarketsResponse :=
  let zipcode := pyStrip (zipcode_field.getD "")
  if zipcode = "" ∨ zipcode.length ≠ 5 ∨ pyIsDigit zipcode = false then
    ⟨400, false, none, false, false⟩
  else
    match geo with
    | .none => ⟨404, false, none, true, false⟩
    | .found c =>
        ⟨200, true, some (search_farmers_markets dist c elements), true, true⟩

/-- A nutrient value as the claims describe it: either the sentinel or
a number that is the 2-decimal rounding of some upstream number. -/
def isRoundedNutrient (v : NutrientVal) : Prop :=
  v = .na ∨ ∃ q : ℚ, v = .num (pythonRound2 q)

/-- An upstream product whose optional keys are all absent; used as a
concrete instance in witnesses. -/
def emptyUpstreamNutriments : UpstreamNutriments :=
  ⟨none, none, none, none, none, none, none, none, none⟩

def emptyUpstreamProduct : UpstreamProduct :=
  ⟨none, none, none, none, none, none, none, none, none, none, emptyUpstreamNutriments⟩

/-- AI outcomes in which every generative call raised. -/
def allFailAI : AIOutcomes := ⟨.failure, .failure, .failure, .failure, .failure⟩

/-- AI outcomes in which no generative client is configured. -/
def noClientAI : AIOutcomes := ⟨.noClient, .noClient, .noClient, .noClient, .noClient⟩

/-! ### Theorems -/

/-- C2 counterexample: the ingredient text `"Not available"` lowercases
to a non-empty string containing no non-vegan keyword, yet the vegan
flag (indeed every flag) is `false` — so the flags are not `false`
exactly on keyword matches plus the empty text. -/
theorem certification_not_available_refutes_c2 :
    pyLower "Not available" ≠ "" ∧
    non_vegan_ingredients.all (fun kw => !(pyIn kw (pyLower "Not available"))) = true ∧
    non_halal_ingredients.all (fun kw => !(pyIn kw (pyLower "Not available"))) = true ∧
    non_kosher_ingredients.all (fun kw => !(pyIn kw (pyLower "Not available"))) = true ∧
    computeCertifications "Not available" = ⟨false, false, false⟩ := by
  decide

/-- C2 (amended): each certification flag is `false` exactly when the
lowercased ingredient text contains a keyword of that flag's list, or
is empty, or is the literal string `"not available"`; in particular
text containing `"milk"` forces the vegan flag `false`. -/
theorem certification_flags_false_iff (s : String) :
    ((computeCertifications s).vegan = false ↔
      (non_vegan_ingredients.any (fun kw => pyIn kw (pyLower s)) = true ∨
        pyLower s = "" ∨ pyLower s = "not available")) ∧
    ((computeCertifications s).halal = false ↔
      (non_halal_ingredients.any (fun kw => pyIn kw (pyLower s)) = true ∨
        pyLower s = "" ∨ pyLower s = "not available")) ∧
    ((computeCertifications s).kosher = false ↔
      (non_kosher_ingredients.any (fun kw => pyIn kw (pyLower s)) = true ∨
        pyLower s = "" ∨ pyLower s = "not available")) := by
  by_cases h : pyLower s = "" ∨ pyLower s = "not available"
  · refine ⟨?_, ?_, ?_⟩ <;> · simp only [computeCertifications, if_pos h]; tauto
  · rw [not_or] at h
    refine ⟨?_, ?_, ?_⟩ <;>
      · simp only [computeCertifications, if_neg (not_or.mpr h)]
        simp [h.1, h.2]

/-- C9: for ingredient text that is non-empty and not literally
`"not available"` after lowercasing, any flag whose keyword list has no
substring match in the text defaults to `true`. -/
theorem certification_flags_default_true (s : String)
    (h1 : pyLower s ≠ "") (h2 : pyLower s ≠ "not available") :
    (non_vegan_ingredients.all (fun kw => !(pyIn kw (pyLower s))) = true →
      (computeCertifications s).vegan = true) ∧
    (non_halal_ingredients.all (fun kw => !(pyIn kw (pyLower s))) = true →
      (computeCertifications s).halal = true) ∧
    (non_kosher_ingredients.all (fun kw => !(pyIn kw (pyLower s))) = true →
      (computeCertifications s).kosher = true) := by
  refine ⟨?_, ?_, ?_⟩ <;> intro hall <;>
    · simp only [computeCertifications, if_neg (not_or.mpr ⟨h1, h2⟩)]
      simp only [List.all_eq_true, Bool.not_eq_true'] at hall
      simp [List.any_eq_true]
      intro kw hkw
      exact hall kw hkw

/-- Witness for `certification_flags_default_true` at the concrete
ingredient text `"Water"`, which matches no keyword list. -/
theorem certification_flags_default_true_witness :
    (computeCertifications "Water").vegan = true ∧
    (computeCertifications "Water").halal = true ∧
    (computeCertifications "Water").kosher = true :=
  ⟨(certification_flags_default_true "Water" (by decide) (by decide)).1 (by decide),
   (certification_flags_default_true "Water" (by decide) (by decide)).2.1 (by decide),
   (certification_flags_default_true "Water" (by decide) (by decide)).2.2 (by decide)⟩

/-- C4: the market list returned by `search_farmers_markets` is sorted
in non-decreasing order of its (rounded) distance field and has at most
10 entries, for every distance function, query centre and Overpass
result set. -/
theorem market_results_sorted_and_capped (dist : ℚ → ℚ → ℚ → ℚ → ℚ)
    (center : Coords) (elements : List OsmElement) :
    (search_farmers_markets dist center elements).Pairwise
      (fun a b => a.distance ≤ b.distance) ∧
    (search_farmers_markets dist center elements).length ≤ 10 := by
  have htrans : ∀ a b c : Market, byDistance a b = true → byDistance b c = true →
      byDistance a c = true := by
    intro a b c hab hbc
    simp only [byDistance, decide_eq_true_eq] at hab hbc ⊢
    exact le_trans hab hbc
  have htotal : ∀ a b : Market, (byDistance a b || byDistance b a) = true := by
    intro a b
    simp only [byDistance, Bool.or_eq_true, decide_eq_true_eq]
    exact le_total _ _
  constructor
  · have hs := List.sorted_mergeSort htrans htotal (elements.map (mkMarket dist center))
    have hsub : (search_farmers_markets dist center elements).Sublist
        ((elements.map (mkMarket dist center)).mergeSort byDistance) := by
      simpa [search_farmers_markets] using
        List.take_sublist 10 ((elements.map (mkMarket dist center)).mergeSort byDistance)
    refine (List.Pairwise.sublist hsub hs).imp ?_
    intro a b hab
    simpa [byDistance, decide_eq_true_eq] using hab
  · have h10 : (search_farmers_markets dist center elements).length =
        10 ⊓ ((elements.map (mkMarket dist center)).mergeSort byDistance).length := by
      simp [search_farmers_markets, List.length_take]
    rw [h10]
    exact min_le_left _ _

/-- C5: a `/find-markets` request whose stripped zipcode is not exactly
5 decimal digits is answered with HTTP 400 and neither the geocoding
call nor the Overpass POI call is performed. -/
theorem invalid_zip_rejected_before_network (geo : GeoResult)
    (dist : ℚ → ℚ → ℚ → ℚ → ℚ) (elements : List OsmElement)
    (zipcode_field : Option String)
    (h : ¬((pyStrip (zipcode_field.getD "")).length = 5 ∧
           (pyStrip (zipcode_field.getD "")).data.all Char.isDigit = true)) :
    (find_markets geo dist elements zipcode_field).status = 400 ∧
    (find_markets geo dist elements zipcode_field).geocode_called = false ∧
    (find_markets geo dist elements zipcode_field).poi_called = false := by
  have hcond : pyStrip (zipcode_field.getD "") = "" ∨
      (pyStrip (zipcode_field.getD "")).length ≠ 5 ∨
      pyIsDigit (pyStrip (zipcode_field.getD "")) = false := by
    by_cases hl : (pyStrip (zipcode_field.getD "")).length = 5
    · right; right
      have hd : (pyStrip (zipcode_field.getD "")).data.all Char.isDigit = false := by
        cases hall : (pyStrip (zipcode_field.getD "")).data.all Char.isDigit
        · rfl
        · exact absurd ⟨hl, hall⟩ h
      simp [pyIsDigit, hd]
    · right; left; exact hl
  simp only [find_markets, if_pos hcond]
  exact ⟨trivial, trivial, trivial⟩

/-- Witness for `invalid_zip_rejected_before_network` at the concrete
malformed zipcode `"12a45"`. -/
theorem invalid_zip_rejected_before_network_witness :
    (find_markets (.found ⟨0, 0⟩) (fun _ _ _ _ => 0) [] (some "12a45")).status = 400 ∧
    (find_markets (.found ⟨0, 0⟩) (fun _ _ _ _ => 0) [] (some "12a45")).geocode_called = false ∧
    (find_markets (.found ⟨0, 0⟩) (fun _ _ _ _ => 0) [] (some "12a45")).poi_called = false :=
  invalid_zip_rejected_before_network (.found ⟨0, 0⟩) (fun _ _ _ _ => 0) [] (some "12a45")
    (by decide)

/-- Every output of `round_nutrient` is the sentinel or a 2-decimal
rounded number. -/
theorem round_nutrient_rounded (x : Option JVal) : isRoundedNutrient (round_nutrient x) := by
  unfold isRoundedNutrient
  match x with
  | none => exact Or.inl rfl
  | some v =>
      by_cases hv : v = .jstr "N/A" ∨ v = .jnull
      · exact Or.inl (by simp [round_nutrient, hv])
      · cases hp : pyFloat v with
        | none => exact Or.inl (by simp [round_nutrient, hv, hp])
        | some q => exact Or.inr ⟨q, by simp [round_nutrient, hv, hp]⟩

/-- C7: for a found product whose record lacks the Nutri-Score or
Eco-Score grade key, the corresponding response field is the string
`"N/A"` (the field is total in the response, never null or absent). -/
theorem missing_grades_become_na (barcode : String) (product : UpstreamProduct)
    (ai : AIOutcomes) (filters : Filters) :
    (product.nutriscore_grade = none →
      (scan_barcode_found barcode product ai filters).nutriscore_grade = "N/A") ∧
    (product.ecoscore_grade = none →
      (scan_barcode_found barcode product ai filters).ecoscore_grade = "N/A") := by
  constructor
  · intro h
    show orNA (pyUpper (product.nutriscore_grade.getD "")) = "N/A"
    rw [h]
    decide
  · intro h
    show orNA (pyUpper (product.ecoscore_grade.getD "")) = "N/A"
    rw [h]
    decide

/-- Witness for `missing_grades_become_na` at a concrete product with
no grade keys. -/
theorem missing_grades_become_na_witness :
    (scan_barcode_found "123" emptyUpstreamProduct allFailAI ⟨[], []⟩).nutriscore_grade = "N/A" ∧
    (scan_barcode_found "123" emptyUpstreamProduct allFailAI ⟨[], []⟩).ecoscore_grade = "N/A" :=
  ⟨(missing_grades_become_na "123" emptyUpstreamProduct allFailAI ⟨[], []⟩).1 rfl,
   (missing_grades_become_na "123" emptyUpstreamProduct allFailAI ⟨[], []⟩).2 rfl⟩

/-- C8: for every found product, the response's nutriments object has
all six fields, each either a 2-decimal rounded number or the `"N/A"`
sentinel, and an upstream-missing nutrient yields the sentinel. -/
theorem nutriments_always_complete (barcode : String) (product : UpstreamProduct)
    (ai : AIOutcomes) (filters : Filters) :
    (isRoundedNutrient (scan_barcode_found barcode product ai filters).nutriments.energy ∧
     isRoundedNutrient (scan_barcode_found barcode product ai filters).nutriments.fat ∧
     isRoundedNutrient (scan_barcode_found barcode product ai filters).nutriments.carbohydrates ∧
     isRoundedNutrient (scan_barcode_found barcode product ai filters).nutriments.proteins ∧
     isRoundedNutrient (scan_barcode_found barcode product ai filters).nutriments.salt ∧
     isRoundedNutrient (scan_barcode_found barcode product ai filters).nutriments.fiber) ∧
    (product.nutriments.energy_kcal_100g = none →
      (scan_barcode_found barcode product ai filters).nutriments.energy = .na) ∧
    (product.nutriments.fat_100g = none →
      (scan_barcode_found barcode product ai filters).nutriments.fat = .na) ∧
    (product.nutriments.carbohydrates_100g = none →
      (scan_barcode_found barcode product ai filters).nutriments.carbohydrates = .na) ∧
    (product.nutriments.proteins_100g = none →
      (scan_barcode_found barcode product ai filters).nutriments.proteins = .na) ∧
    (product.nutriments.salt_100g = none →
      (scan_barcode_found barcode product ai filters).nutriments.salt = .na) ∧
    (product.nutriments.fiber_100g = none →
      (scan_barcode_found barcode product ai filters).nutriments.fiber = .na) := by
  refine ⟨⟨round_nutrient_rounded _, round_nutrient_rounded _, round_nutrient_rounded _,
          round_nutrient_rounded _, round_nutrient_rounded _, round_nutrient_rounded _⟩,
         ?_, ?_, ?_, ?_, ?_, ?_⟩
  · intro h
    show round_nutrient product.nutriments.energy_kcal_100g = .na
    rw [h]
    decide
  · intro h
    show round_nutrient product.nutriments.fat_100g = .na
    rw [h]
    decide
  · intro h
    show round_nutrient product.nutriments.carbohydrates_100g = .na
    rw [h]
    decide
  · intro h
    show round_nutrient product.nutriments.proteins_100g = .na
    rw [h]
    decide
  · intro h
    show round_nutrient product.nutriments.salt_100g = .na
    rw [h]
    decide
  · intro h
    show round_nutrient product.nutriments.fiber_100g = .na
    rw [h]
    decide

/-- Witness for `nutriments_always_complete` at a concrete product with
every nutrient key absent upstream. -/
theorem nutriments_always_complete_witness :
    isRoundedNutrient
      (scan_barcode_found "123" emptyUpstreamProduct allFailAI ⟨[], []⟩).nutriments.energy ∧
    (scan_barcode_found "123" emptyUpstreamProduct allFailAI ⟨[], []⟩).nutriments.energy = .na ∧
    (scan_barcode_found "123" emptyUpstreamProduct allFailAI ⟨[], []⟩).nutriments.fiber = .na :=
  ⟨(nutriments_always_complete "123" emptyUpstreamProduct allFailAI ⟨[], []⟩).1.1,
   (nutriments_always_complete "123" emptyUpstreamProduct allFailAI ⟨[], []⟩).2.1 rfl,
   (nutriments_always_complete "123" emptyUpstreamProduct allFailAI ⟨[], []⟩).2.2.2.2.2.2 rfl⟩

/-- C6: with the `diabetes` health filter active and a numeric sugar
value, sugar strictly above 10 yields a high-severity warning, sugar
strictly above 5 but not above 10 yields a medium-severity warning, and
filter names outside the recognized enumerations yield no warnings at
all. -/
theorem diabetes_thresholds_and_unknown_filters (p : ProductInfoView)
    (n : NutrimentsForCheck) (filters : Filters) :
    (∀ s : ℚ, "diabetes" ∈ filters.health → n.sugars = .num s → s > 10 →
      ∃ w ∈ check_health_warnings p n filters,
        w.title = "High Sugar Content" ∧ w.severity = "high") ∧
    (∀ s : ℚ, "diabetes" ∈ filters.health → n.sugars = .num s → s > 5 → ¬(s > 10) →
      ∃ w ∈ check_health_warnings p n filters,
        w.title = "Moderate Sugar Content" ∧ w.severity = "medium") ∧
    ((∀ d ∈ filters.dietary, d ∉ recognized_dietary) →
     (∀ h ∈ filters.health, h ∉ recognized_health) →
      check_health_warnings p n filters = []) := by
  refine ⟨?_, ?_, ?_⟩
  · intro s hmem hsug h10
    refine ⟨⟨"High Sugar Content",
      "This product contains " ++ pyShow s ++
        "g of sugar per 100g, which may not be suitable for diabetes management.",
      "high"⟩, ?_, rfl, rfl⟩
    simp [check_health_warnings, hsug, hmem, h10, List.mem_append]
  · intro s hmem hsug h5 h10
    refine ⟨⟨"Moderate Sugar Content",
      "This product contains " ++ pyShow s ++
        "g of sugar per 100g. Monitor blood glucose levels carefully.",
      "medium"⟩, ?_, rfl, rfl⟩
    simp [check_health_warnings, hsug, hmem, h5, h10, List.mem_append]
  · intro hd hh
    have h1 : "vegan" ∉ filters.dietary := fun hm => hd _ hm (by decide)
    have h2 : "vegetarian" ∉ filters.dietary := fun hm => hd _ hm (by decide)
    have h3 : "halal" ∉ filters.dietary := fun hm => hd _ hm (by decide)
    have h4 : "kosher" ∉ filters.dietary := fun hm => hd _ hm (by decide)
    have h5 : "gluten_free" ∉ filters.dietary := fun hm => hd _ hm (by decide)
    have h6 : "lactose_free" ∉ filters.dietary := fun hm => hd _ hm (by decide)
    have h7 : "diabetes" ∉ filters.health := fun hm => hh _ hm (by decide)
    have h8 : "hypertension" ∉ filters.health := fun hm => hh _ hm (by decide)
    have h9 : "heart_disease" ∉ filters.health := fun hm => hh _ hm (by decide)
    have h10 : "celiac" ∉ filters.health := fun hm => hh _ hm (by decide)
    have h11 : "kidney_disease" ∉ filters.health := fun hm => hh _ hm (by decide)
    simp [check_health_warnings, h1, h2, h3, h4, h5, h6, h7, h8, h9, h10, h11]

/-- Witness for `diabetes_thresholds_and_unknown_filters`: sugar 12
(high), sugar 7 (medium), and unrecognized filter names (no warnings). -/
theorem diabetes_thresholds_and_unknown_filters_witness :
    (∃ w ∈ check_health_warnings ⟨"", ⟨false, false, false⟩⟩
        ⟨.num 12, .na, .na, .na, .na⟩ ⟨[], ["diabetes"]⟩,
      w.title = "High Sugar Content" ∧ w.severity = "high") ∧
    (∃ w ∈ check_health_warnings ⟨"", ⟨false, false, false⟩⟩
        ⟨.num 7, .na, .na, .na, .na⟩ ⟨[], ["diabetes"]⟩,
      w.title = "Moderate Sugar Content" ∧ w.severity = "medium") ∧
    check_health_warnings ⟨"", ⟨false, false, false⟩⟩
      ⟨.num 7, .na, .na, .na, .na⟩ ⟨["keto"], ["pregnancy"]⟩ = [] :=
  ⟨(diabetes_thresholds_and_unknown_filters ⟨"", ⟨false, false, false⟩⟩
      ⟨.num 12, .na, .na, .na, .na⟩ ⟨[], ["diabetes"]⟩).1 12 (by decide) rfl (by decide),
   (diabetes_thresholds_and_unknown_filters ⟨"", ⟨false, false, false⟩⟩
      ⟨.num 7, .na, .na, .na, .na⟩ ⟨[], ["diabetes"]⟩).2.1 7 (by decide) rfl
      (by decide) (by decide),
   (diabetes_thresholds_and_unknown_filters ⟨"", ⟨false, false, false⟩⟩
      ⟨.num 7, .na, .na, .na, .na⟩ ⟨["keto"], ["pregnancy"]⟩).2.2
      (by decide) (by decide)⟩

/-- The function `generate_community_impact_actions` always returns a (5-element,
hence non-empty) list. -/
theorem gen_actions_ne_nil (pack cat : String) (sc : ℚ) :
    generate_community_impact_actions pack cat sc ≠ [] := by
  simp [generate_community_impact_actions]

/-- Unfolding of `sustainability_block` on present metrics: the
community-actions list is never empty, so all five keys are set. -/
theorem sustainability_block_some (m : Metrics) (pack cat : String) :
    sustainability_block (some m) pack cat =
      ⟨some m, some (overall_sustainability_score m),
       some (generate_community_impact_actions pack cat (overall_sustainability_score m)),
       some (community_impact_score
         (generate_community_impact_actions pack cat (overall_sustainability_score m))),
       some (combined_overall_score (overall_sustainability_score m)
         (community_impact_score
           (generate_community_impact_actions pack cat (overall_sustainability_score m))))⟩ := by
  simp only [sustainability_block]
  rw [if_neg (gen_actions_ne_nil pack cat (overall_sustainability_score m))]

/-- The `sustainability_metrics` key reproduces the enrichment result. -/
theorem sustainability_block_metrics_key (m? : Option Metrics) (pack cat : String) :
    (sustainability_block m? pack cat).sustainability_metrics = m? := by
  cases m? with
  | none => rfl
  | some m => rw [sustainability_block_some]

/-- The code's list-based overall score is the arithmetic mean of the 8
metric scores scaled by 10, rounded to one decimal. -/
theorem overall_score_eq (m : Metrics) :
    overall_sustainability_score m =
      pythonRound1 ((m.greenhouse_gas.score + m.processing.score + m.water_usage.score +
        m.land_use.score + m.soil_health.score + m.labor_risk.score +
        m.animal_welfare.score + m.biodiversity.score) / 8 * 10) := by
  simp only [overall_sustainability_score, metric_scores]
  rw [if_neg (by simp)]
  norm_num
  ring_nf

/-- The code's community score on a non-empty action list is the mean of
the impact scores scaled by 10, rounded to one decimal. -/
theorem community_score_eq (l : List CommunityAction) (h : l ≠ []) :
    community_impact_score l =
      pythonRound1 ((l.map (fun a => a.impact_score)).sum / l.length * 10) := by
  simp only [community_impact_score]
  rw [if_neg (by simpa using h), List.length_map]

/-- The three derived scores of the sustainability block, each related
to the data it is derived from. -/
theorem sustainability_block_scores (m? : Option Metrics) (pack cat : String) :
    ((sustainability_block m? pack cat).overall_sustainability_score =
      ((sustainability_block m? pack cat).sustainability_metrics).map
        (fun m => pythonRound1 ((m.greenhouse_gas.score + m.processing.score +
          m.water_usage.score + m.land_use.score + m.soil_health.score +
          m.labor_risk.score + m.animal_welfare.score + m.biodiversity.score) / 8 * 10))) ∧
    ((sustainability_block m? pack cat).community_impact_score =
      ((sustainability_block m? pack cat).community_impact_actions).map
        (fun l => pythonRound1 ((l.map (fun a => a.impact_score)).sum / l.length * 10))) ∧
    ((sustainability_block m? pack cat).combined_overall_score =
      Option.map₂ (fun o c => pythonRound1 ((o + c) / 2))
        (sustainability_block m? pack cat).overall_sustainability_score
        (sustainability_block m? pack cat).community_impact_score) := by
  cases m? with
  | none => exact ⟨rfl, rfl, rfl⟩
  | some m =>
      rw [sustainability_block_some]
      refine ⟨?_, ?_, ?_⟩
      · show some (overall_sustainability_score m) = some _
        exact congrArg some (overall_score_eq m)
      · show some (community_impact_score _) = some _
        exact congrArg some
          (community_score_eq _ (gen_actions_ne_nil pack cat (overall_sustainability_score m)))
      · rfl

/-- C3: in every scan response, the overall sustainability score is the
arithmetic mean of the 8 metric scores times 10, the community impact
score is the arithmetic mean of the community actions' impact scores
times 10, the combined score is the arithmetic mean of those two
scores, and each is rounded to one decimal place (all whenever the
corresponding source data is in the response). -/
theorem scores_are_scaled_rounded_means (barcode : String) (product : UpstreamProduct)
    (ai : AIOutcomes) (filters : Filters) :
    ((scan_barcode_found barcode product ai filters).overall_sustainability_score =
      ((scan_barcode_found barcode product ai filters).sustainability_metrics).map
        (fun m => pythonRound1 ((m.greenhouse_gas.score + m.processing.score +
          m.water_usage.score + m.land_use.score + m.soil_health.score +
          m.labor_risk.score + m.animal_welfare.score + m.biodiversity.score) / 8 * 10))) ∧
    ((scan_barcode_found barcode product ai filters).community_impact_score =
      ((scan_barcode_found barcode product ai filters).community_impact_actions).map
        (fun l => pythonRound1 ((l.map (fun a => a.impact_score)).sum / l.length * 10))) ∧
    ((scan_barcode_found barcode product ai filters).combined_overall_score =
      Option.map₂ (fun o c => pythonRound1 ((o + c) / 2))
        (scan_barcode_found barcode product ai filters).overall_sustainability_score
        (scan_barcode_found barcode product ai filters).community_impact_score) :=
  sustainability_block_scores (generate_sustainability_metrics ai.metrics)
    (product.packaging.getD "Unknown") (product.categories.getD "")

/-- C1 counterexample: with a found product and every generative
sub-call failing, the request still succeeds with status 200, but the
`waste_reduction_tips` and `product_alternatives` fields do NOT appear
in the response — a failed enrichment sub-call does not always leave
the corresponding field present with a default value. -/
theorem failed_enrichment_fields_absent_refutes_c1 :
    (scan_barcode_found "123" emptyUpstreamProduct allFailAI ⟨[], []⟩).status = 200 ∧
    allFailAI.waste = .failure ∧
    (scan_barcode_found "123" emptyUpstreamProduct allFailAI ⟨[], []⟩).waste_reduction_tips
      = none ∧
    allFailAI.alternatives = .failure ∧
    (scan_barcode_found "123" emptyUpstreamProduct allFailAI ⟨[], []⟩).product_alternatives
      = none :=
  ⟨rfl, rfl, rfl, rfl, rfl⟩

/-- C1 (amended): for a found product no enrichment failure ever fails
the request — the status is always 200.  A failed score-summary call
leaves the trivial `"<Type>: <grade>"` default; an exception in the
metrics call leaves all 8 metrics present with neutral score 5 and a
placeholder explanation; but the waste-tips and alternatives fields are
simply omitted on failure, and the metrics field is omitted when no
generative client is configured. -/
theorem enrichment_failures_absorbed (barcode : String) (product : UpstreamProduct)
    (ai : AIOutcomes) (filters : Filters) :
    (scan_barcode_found barcode product ai filters).status = 200 ∧
    (ai.nutri_summary = .failure ∨ ai.nutri_summary = .noClient →
      (scan_barcode_found barcode product ai filters).nutriscore_summary =
        "Nutri-Score" ++ ": " ++ orNotAvailable (pyUpper (product.nutriscore_grade.getD ""))) ∧
    (ai.eco_summary = .failure ∨ ai.eco_summary = .noClient →
      (scan_barcode_found barcode product ai filters).ecoscore_summary =
        "Eco-Score" ++ ": " ++ orNotAvailable (pyUpper (product.ecoscore_grade.getD ""))) ∧
    (ai.metrics = .failure →
      (scan_barcode_found barcode product ai filters).sustainability_metrics =
        some default_metrics) ∧
    (ai.metrics = .noClient →
      (scan_barcode_found barcode product ai filters).sustainability_metrics = none) ∧
    (ai.waste = .failure →
      (scan_barcode_found barcode product ai filters).waste_reduction_tips = none) ∧
    (ai.alternatives = .failure →
      (scan_barcode_found barcode product ai filters).product_alternatives = none) := by
  refine ⟨rfl, ?_, ?_, ?_, ?_, ?_, ?_⟩
  · rintro (h | h) <;>
    · show generate_score_summary "Nutri-Score"
        (orNotAvailable (pyUpper (product.nutriscore_grade.getD "")))
        (product.product_name.getD "Unknown Product") ai.nutri_summary = _
      rw [h]
      rfl
  · rintro (h | h) <;>
    · show generate_score_summary "Eco-Score"
        (orNotAvailable (pyUpper (product.ecoscore_grade.getD "")))
        (product.product_name.getD "Unknown Product") ai.eco_summary = _
      rw [h]
      rfl
  · intro h
    show (sustainability_block (generate_sustainability_metrics ai.metrics)
      (product.packaging.getD "Unknown") (product.categories.getD "")).sustainability_metrics
      = some default_metrics
    rw [sustainability_block_metrics_key, h]
    rfl
  · intro h
    show (sustainability_block (generate_sustainability_metrics ai.metrics)
      (product.packaging.getD "Unknown") (product.categories.getD "")).sustainability_metrics
      = none
    rw [sustainability_block_metrics_key, h]
    rfl
  · intro h
    show (match generate_waste_reduction_tips ai.waste with
      | some tips => if tips = [] then none else some tips
      | none => none) = none
    rw [h]
    rfl
  · intro h
    show (match generate_product_alternatives ai.alternatives with
      | some alts => if alts = [] then none else some alts
      | none => none) = none
    rw [h]
    rfl

/-- Witness for `enrichment_failures_absorbed`: the all-failures
outcome at a concrete product. -/
theorem enrichment_failures_absorbed_witness :
    (scan_barcode_found "456" emptyUpstreamProduct allFailAI ⟨[], []⟩).status = 200 ∧
    (scan_barcode_found "456" emptyUpstreamProduct allFailAI ⟨[], []⟩).nutriscore_summary =
      "Nutri-Score" ++ ": " ++
        orNotAvailable (pyUpper (emptyUpstreamProduct.nutriscore_grade.getD "")) ∧
    (scan_barcode_found "456" emptyUpstreamProduct allFailAI ⟨[], []⟩).sustainability_metrics =
      some default_metrics ∧
    (scan_barcode_found "456" emptyUpstreamProduct noClientAI ⟨[], []⟩).sustainability_metrics =
      none ∧
    (scan_barcode_found "456" emptyUpstreamProduct allFailAI ⟨[], []⟩).waste_reduction_tips =
      none :=
  ⟨(enrichment_failures_absorbed "456" emptyUpstreamProduct allFailAI ⟨[], []⟩).1,
   (enrichment_failures_absorbed "456" emptyUpstreamProduct allFailAI ⟨[], []⟩).2.1
     (Or.inl rfl),
   (enrichment_failures_absorbed "456" emptyUpstreamProduct allFailAI ⟨[], []⟩).2.2.2.1 rfl,
   (enrichment_failures_absorbed "456" emptyUpstreamProduct noClientAI ⟨[], []⟩).2.2.2.2.1 rfl,
   (enrichment_failures_absorbed "456" emptyUpstreamProduct allFailAI ⟨[], []⟩).2.2.2.2.2.1
     rfl⟩

/-- The community score computed from the generated actions always lies
in `[66, 80]` (in fact in `[74, 80]`). -/
theorem community_score_bounds (pack cat : String) (sc : ℚ) :
    66 ≤ community_impact_score (generate_community_impact_actions pack cat sc) ∧
    community_impact_score (generate_community_impact_actions pack cat sc) ≤ 80 := by
  simp only [generate_community_impact_actions]
  split_ifs <;>
    constructor <;>
      norm_num [community_impact_score, pythonRound1, roundHalfEven,
        List.map, List.sum_cons, List.sum_nil] <;>
      decide

/-- The generated action list always has exactly 5 entries, each with
impact score between 6 and 9. -/
theorem gen_actions_length_and_range (pack cat : String) (sc : ℚ) :
    (generate_community_impact_actions pack cat sc).length = 5 ∧
    ∀ a ∈ generate_community_impact_actions pack cat sc,
      6 ≤ a.impact_score ∧ a.impact_score ≤ 9 := by
  simp only [generate_community_impact_actions]
  split_ifs <;> decide

/-- C10: `generate_community_impact_actions` always returns exactly 5
actions with impact scores in `[6, 9]`; every `community_impact_score`
in a response lies between 66.0 and 80.0; and whenever sustainability
metrics are in the response, the community actions field is present and
non-empty. -/
theorem community_actions_invariants (barcode : String) (product : UpstreamProduct)
    (ai : AIOutcomes) (filters : Filters) :
    (∀ (pack cat : String) (sc : ℚ),
      (generate_community_impact_actions pack cat sc).length = 5 ∧
      ∀ a ∈ generate_community_impact_actions pack cat sc,
        6 ≤ a.impact_score ∧ a.impact_score ≤ 9) ∧
    (∀ c : ℚ, (scan_barcode_found barcode product ai filters).community_impact_score = some c →
      66 ≤ c ∧ c ≤ 80) ∧
    (∀ m : Metrics,
      (scan_barcode_found barcode product ai filters).sustainability_metrics = some m →
      ∃ l, (scan_barcode_found barcode product ai filters).community_impact_actions = some l ∧
        l ≠ []) := by
  refine ⟨fun pack cat sc => gen_actions_length_and_range pack cat sc, ?_, ?_⟩
  · intro c hc
    have hc' : (sustainability_block (generate_sustainability_metrics ai.metrics)
        (product.packaging.getD "Unknown")
        (product.categories.getD "")).community_impact_score = some c := hc
    cases hg : generate_sustainability_metrics ai.metrics with
    | none =>
        rw [hg] at hc'
        simp [sustainability_block] at hc'
    | some m =>
        rw [hg, sustainability_block_some] at hc'
        have : community_impact_score
            (generate_community_impact_actions (product.packaging.getD "Unknown")
              (product.categories.getD "") (overall_sustainability_score m)) = c :=
          Option.some.inj hc'
        rw [← this]
        exact community_score_bounds _ _ _
  · intro m hm
    have hm' : (sustainability_block (generate_sustainability_metrics ai.metrics)
        (product.packaging.getD "Unknown")
        (product.categories.getD "")).sustainability_metrics = some m := hm
    rw [sustainability_block_metrics_key] at hm'
    refine ⟨generate_community_impact_actions (product.packaging.getD "Unknown")
      (product.categories.getD "") (overall_sustainability_score m), ?_,
      gen_actions_ne_nil _ _ _⟩
    show (sustainability_block (generate_sustainability_metrics ai.metrics)
      (product.packaging.getD "Unknown")
      (product.categories.getD "")).community_impact_actions = _
    rw [hm', sustainability_block_some]

/-- Witness for `community_actions_invariants` at a concrete scan in
which the metrics call raised (so the all-default metrics are present). -/
theorem community_actions_invariants_witness :
    ((generate_community_impact_actions "box" "food" 50).length = 5 ∧
      ∀ a ∈ generate_community_impact_actions "box" "food" 50,
        6 ≤ a.impact_score ∧ a.impact_score ≤ 9) ∧
    (66 ≤ community_impact_score (generate_community_impact_actions "Unknown" ""
        (overall_sustainability_score default_metrics)) ∧
      community_impact_score (generate_community_impact_actions "Unknown" ""
        (overall_sustainability_score default_metrics)) ≤ 80) ∧
    (∃ l, (scan_barcode_found "789" emptyUpstreamProduct allFailAI
        ⟨[], []⟩).community_impact_actions = some l ∧ l ≠ []) :=
  ⟨(community_actions_invariants "789" emptyUpstreamProduct allFailAI ⟨[], []⟩).1 "box" "food" 50,
   (community_actions_invariants "789" emptyUpstreamProduct allFailAI ⟨[], []⟩).2.1
     (community_impact_score (generate_community_impact_actions "Unknown" ""
       (overall_sustainability_score default_metrics)))
     (congrArg SustainabilityFields.community_impact_score
       (sustainability_block_some default_metrics "Unknown" "")),
   (community_actions_invariants "789" emptyUpstreamProduct allFailAI ⟨[], []⟩).2.2
     default_metrics
     (congrArg SustainabilityFields.sustainability_metrics
       (sustainability_block_some default_metrics "Unknown" ""))⟩

end ScarletScanner
